import Mathlib

/-!
Shallow embedding of the stealth_swap Solana program
(src/atomic-swap/solana-program/src/lib.rs) for verification of its
natural-language specification.

Byte strings are lists of natural numbers (each byte a value below 256),
big-endian as in the source.  Machine arithmetic (u16 in the subtraction
loop) never under- or overflows on byte-ranged inputs, so plain Nat
operations with explicit `% 256` model it faithfully.  External Solana
syscalls (sha256 hashing and secp256k1 public-key recovery) are modelled
as an abstract Oracle record of pure functions; the program under
verification only consumes their outputs.
-/

set_option maxRecDepth 16000

deriving instance DecidableEq for Except

namespace StealthSwap

abbrev Bytes := List Nat

/-- The secp256k1 group order `N` as the 32 big-endian bytes hard-coded in
`verify_adaptor_signature`. -/
def N_ORDER : Bytes :=
  [0xFF, 0xFF, 0xFF, 0xFF, 0xFF, 0xFF, 0xFF, 0xFF,
   0xFF, 0xFF, 0xFF, 0xFF, 0xFF, 0xFF, 0xFF, 0xFE,
   0xBA, 0xAE, 0xDC, 0xE6, 0xAF, 0x48, 0xA0, 0x3B,
   0xBF, 0xD2, 0x5E, 0x8C, 0xD0, 0x36, 0x41, 0x41]

/-- One pass of the subtraction loop of `verify_adaptor_signature`, on
little-endian byte lists (the Rust loop runs `for i in (0..32).rev()`,
i.e. least-significant byte of the big-endian arrays first).  Returns the
little-endian result bytes together with the final borrow.  Each
iteration computes `a = s[i] + 256 - borrow`, `diff = a - e[i]`, then the
source's extra per-byte step `if diff >= N[i] { diff -= N[i] }`, sets
`borrow = if diff < 256 then 1 else 0` and emits `diff % 256`. -/
def subLoopLE : Bytes → Bytes → Bytes → Nat → Bytes × Nat
  | s :: ss, e :: es, n :: ns, borrow =>
      let a := s + 256 - borrow
      let diff0 := a - e
      let diff := if n ≤ diff0 then diff0 - n else diff0
      let borrow2 := if diff < 256 then 1 else 0
      let rest := subLoopLE ss es ns borrow2
      (diff % 256 :: rest.1, rest.2)
  | _, _, _, borrow => ([], borrow)

/-- The add-back loop of `verify_adaptor_signature`, on little-endian byte
lists: adds `N` to the result with carry propagation, dropping the final
carry (the Rust loop writes `t[i] = sum & 0xff`). -/
def addLoopLE : Bytes → Bytes → Nat → Bytes
  | t :: ts, n :: ns, carry =>
      let sum := n + carry + t
      sum % 256 :: addLoopLE ts ns (sum / 256)
  | _, _, _ => []

/-- The secret-extraction step of `verify_adaptor_signature`: given the
big-endian 32-byte operands `s` (second half of the signature) and `e`
(the computed challenge), runs the subtraction loop and, when the loop
ends with a borrow, adds `N_ORDER` back once.  Translated line by line
from src/atomic-swap/solana-program/src/lib.rs lines 63-93. -/
def extractScalar (s e : Bytes) : Bytes :=
  let sub := subLoopLE s.reverse e.reverse N_ORDER.reverse 0
  let t := if sub.2 ≠ 0 then addLoopLE sub.1 N_ORDER.reverse 0 else sub.1
  t.reverse

/-- Error codes of the program (`#[error_code] pub enum ErrorCode`),
restricted to the constructors the verified fragment can produce, plus
`ConstraintHasOne`, which models the Anchor account-constraint failure
raised when a `has_one = bob` check on the accounts struct fails (a
framework-level rejection, not a member of the program's own enum). -/
inductive ErrorCode
  | InvalidAdaptorSig
  | AlreadyFinalized
  | NotYetExpired
  | WrongDirection
  | InvalidSecretHash
  | InvalidExpiry
  | ExcessiveRelayerFee
  | VtcAlreadyOpened
  | CommitmentExpiryInvalid
  | BountyAlreadyClaimed
  | ConstraintHasOne
deriving DecidableEq, Repr

/-- External Solana syscalls consumed by `verify_adaptor_signature`,
modelled as an abstract record of pure functions: `hashFn` is the sha256
syscall (`hash::hash`), and `recoverFn` is `secp256k1_recover` (arguments:
message hash, recovery id, 64-byte signature), returning the recovered
64-byte public key or `none` on failure. -/
structure Oracle where
  hashFn : Bytes → Bytes
  recoverFn : Bytes → Nat → Bytes → Option Bytes

/-- `verify_adaptor_signature` (lib.rs lines 8-100): validates the adaptor
signature and extracts the hidden scalar.  Each `require!` and early
return of the source appears as one branch, in source order.  The
constant-time comparison loop compares the first 32 bytes of the
recovered 64-byte public key against `curve_point`; constant-timeness
itself is a non-functional property outside the embedding. -/
def verify_adaptor_signature (o : Oracle) (sig : Bytes) (parity : Nat)
    (curve_point expected_hash : Bytes) : Except ErrorCode Bytes :=
  if 1 < parity then .error .InvalidAdaptorSig
  else if sig.all (· == 0) then .error .InvalidAdaptorSig
  else if curve_point.all (· == 0) then .error .InvalidAdaptorSig
  else if expected_hash.all (· == 0) then .error .InvalidAdaptorSig
  else
    match o.recoverFn expected_hash (if parity = 0 then 0 else 1) sig with
    | none => .error .InvalidAdaptorSig
    | some recovered =>
      if (List.range 32).all (fun i => recovered.getD i 0 == curve_point.getD i 0) then
        if (extractScalar (sig.drop 32)
              (o.hashFn (sig.take 32 ++ curve_point ++ expected_hash))).all (· == 0)
        then .error .InvalidAdaptorSig
        else .ok (extractScalar (sig.drop 32)
              (o.hashFn (sig.take 32 ++ curve_point ++ expected_hash)))
      else .error .InvalidAdaptorSig

/-- `pub enum Direction` of the program. -/
inductive Direction
  | SolToXmr
  | XmrToSol
deriving DecidableEq, Repr

/-- The `Swap` account (lib.rs lines 450-471).  Pubkeys are modelled as
natural-number handles; the PDA `bump` byte is an address-derivation
detail outside the embedding. -/
structure Swap where
  direction : Direction
  swap_id : Bytes
  alice : Nat
  bob : Nat
  secret_hash : Bytes
  expiry : Int
  relayer_fee : Nat
  is_redeemed : Bool
  is_refunded : Bool
  sol_amount : Nat
  xmr_amount : Nat
  monero_sub_address : Bytes
  monero_lock_txid : Bytes
  alice_solana : Nat
  vtc_opened : Bool
  bob_collateral_locked : Bool
  alice_collateral_locked : Bool
  bounty_claimed : Bool
deriving DecidableEq, Repr

/-- One swap instance together with the lamport balances of its two PDA
vaults (`vault` for the principal escrow, `vault_collateral` for the
collateral escrow). -/
structure SwapState where
  swap : Swap
  vault_lamports : Nat
  collateral_lamports : Nat
deriving DecidableEq, Repr

/-- Call-time environment: the clock reading (`Clock::get()?.unix_timestamp`)
and the rent-exemption floors that `Rent::get()?.minimum_balance(..)`
returns for the two vault accounts. -/
structure Env where
  now : Int
  vault_rent : Nat
  collateral_rent : Nat
deriving DecidableEq, Repr

/-- A list of lamport transfers performed by one instruction: pairs of
(destination account key, amount). -/
abbrev Transfers := List (Nat × Nat)

/-- `create_sol_to_xmr_swap` (lib.rs lines 109-166): validates expiry,
relayer fee and secret hash, initialises the record, and escrows
`sol_amount` from Alice into the principal vault and an equal collateral
amount from Bob into the collateral vault (`bob_collateral_locked` set in
the same call).  `vault_init` and `coll_init` are the lamport balances
the two PDAs hold before the call (their rent-exemption deposits). -/
def create_sol_to_xmr_swap (env : Env) (alice bob : Nat)
    (swap_id secret_hash : Bytes) (sol_amount xmr_amount : Nat)
    (monero_sub_address : Bytes) (expiry : Int) (relayer_fee : Nat)
    (vault_init coll_init : Nat) : Except ErrorCode SwapState :=
  if env.now + 24 * 3600 < expiry then
    if relayer_fee ≤ sol_amount / 20 then
      if secret_hash.any (· != 0) then
        .ok { swap := { direction := .SolToXmr, swap_id, alice, bob, secret_hash,
                        expiry, relayer_fee, is_redeemed := false, is_refunded := false,
                        sol_amount, xmr_amount, monero_sub_address,
                        monero_lock_txid := List.replicate 32 0, alice_solana := 0,
                        vtc_opened := false, bob_collateral_locked := true,
                        alice_collateral_locked := false, bounty_claimed := false },
              vault_lamports := vault_init + sol_amount,
              collateral_lamports := coll_init + sol_amount }
      else .error .InvalidSecretHash
    else .error .ExcessiveRelayerFee
  else .error .InvalidExpiry

/-- `create_xmr_to_sol_swap` (lib.rs lines 231-272): initialises the
record for the XMR-to-SOL direction and escrows `sol_amount` from Bob
into the principal vault.  The source performs no `require!` checks in
this entry point, so the embedded function always succeeds. -/
def create_xmr_to_sol_swap (alice bob : Nat) (swap_id secret_hash : Bytes)
    (sol_amount xmr_amount : Nat) (alice_solana : Nat) (expiry : Int)
    (relayer_fee : Nat) (vault_init coll_init : Nat) : Except ErrorCode SwapState :=
  .ok { swap := { direction := .XmrToSol, swap_id, alice, bob, secret_hash,
                  expiry, relayer_fee, is_redeemed := false, is_refunded := false,
                  sol_amount, xmr_amount, monero_sub_address := List.replicate 64 0,
                  monero_lock_txid := List.replicate 32 0, alice_solana,
                  vtc_opened := false, bob_collateral_locked := false,
                  alice_collateral_locked := false, bounty_claimed := false },
        vault_lamports := vault_init + sol_amount,
        collateral_lamports := coll_init }

/-- `record_monero_lock_proof` (lib.rs lines 168-178) together with its
`RecordProof` accounts struct (lines 537-543): the `has_one = bob`
constraint with `bob` a `Signer` means the call is validated only when
the signing caller equals the record's `bob`; the handler then requires
`direction == SolToXmr` and stores the txid.  No lamports move. -/
def record_monero_lock_proof (st : SwapState) (caller : Nat)
    (monero_lock_txid : Bytes) : Except ErrorCode (SwapState × Transfers) :=
  if st.swap.bob = caller then
    if st.swap.direction = Direction.SolToXmr then
      .ok ({ st with swap := { st.swap with monero_lock_txid } }, [])
    else .error .WrongDirection
  else .error .ConstraintHasOne

/-- `redeem_sol` (lib.rs lines 180-226): the SOL-to-XMR redeem entry
point.  Checks terminal flags, direction and parity, runs
`verify_adaptor_signature` against the record's `secret_hash`, then pays
the relayer fee and the remainder of the available vault balance to the
supplied `bob` and `relayer` accounts and sets `is_redeemed`.  Returns
the extracted secret. -/
def redeem_sol (o : Oracle) (env : Env) (st : SwapState) (bob relayer : Nat)
    (adaptor_sig : Bytes) (parity : Nat) (curve_point : Bytes) :
    Except ErrorCode (SwapState × Transfers × Bytes) :=
  if st.swap.is_redeemed || st.swap.is_refunded then .error .AlreadyFinalized
  else if st.swap.direction ≠ Direction.SolToXmr then .error .WrongDirection
  else if 1 < parity then .error .InvalidAdaptorSig
  else
    match verify_adaptor_signature o adaptor_sig parity curve_point st.swap.secret_hash with
    | .error e => .error e
    | .ok secret =>
      let relayer_fee := st.swap.relayer_fee
      let available := st.vault_lamports - env.vault_rent
      let to_bob := available - relayer_fee
      let step1 : Nat × Transfers :=
        if 0 < relayer_fee ∧ relayer_fee ≤ available
        then (st.vault_lamports - relayer_fee, [(relayer, relayer_fee)])
        else (st.vault_lamports, [])
      let step2 : Nat × Transfers :=
        if 0 < to_bob then (step1.1 - to_bob, step1.2 ++ [(bob, to_bob)])
        else (step1.1, step1.2)
      let st2 : SwapState :=
        { st with swap := { st.swap with is_redeemed := true }, vault_lamports := step2.1 }
      .ok (st2, step2.2, secret)

/-- `redeem_sol_alice` (lib.rs lines 274-308): the XMR-to-SOL redeem
entry point.  Checks terminal flags, direction, and that the supplied
signature is exactly 64 bytes; it performs no adaptor-signature
verification and returns no secret (`Result<()>` in the source).  Pays
the relayer fee and the remainder to the supplied `alice` account and
sets `is_redeemed`. -/
def redeem_sol_alice (env : Env) (st : SwapState) (alice relayer : Nat)
    (adaptor_sig : Bytes) : Except ErrorCode (SwapState × Transfers) :=
  if st.swap.is_redeemed || st.swap.is_refunded then .error .AlreadyFinalized
  else if st.swap.direction ≠ Direction.XmrToSol then .error .WrongDirection
  else if adaptor_sig.length ≠ 64 then .error .InvalidAdaptorSig
  else
    let relayer_fee := st.swap.relayer_fee
    let available := st.vault_lamports - env.vault_rent
    let to_alice := available - relayer_fee
    let step1 : Nat × Transfers :=
      if 0 < relayer_fee ∧ relayer_fee ≤ available
      then (st.vault_lamports - relayer_fee, [(relayer, relayer_fee)])
      else (st.vault_lamports, [])
    let step2 : Nat × Transfers :=
      if 0 < to_alice then (step1.1 - to_alice, step1.2 ++ [(alice, to_alice)])
      else (step1.1, step1.2)
    let st2 : SwapState :=
      { st with swap := { st.swap with is_redeemed := true }, vault_lamports := step2.1 }
    .ok (st2, step2.2)

/-- `refund` (lib.rs lines 313-344): requires a non-terminal record and
`now > expiry`, then moves the available balances of both vaults to the
signing `funder` account supplied by the caller and sets `is_refunded`.
The accounts struct (lines 630-656) places no `has_one` constraint on
`funder`. -/
def refund (env : Env) (st : SwapState) (funder : Nat) :
    Except ErrorCode (SwapState × Transfers) :=
  if st.swap.is_redeemed || st.swap.is_refunded then .error .AlreadyFinalized
  else if ¬ st.swap.expiry < env.now then .error .NotYetExpired
  else
    let available := st.vault_lamports - env.vault_rent
    let v : Nat × Transfers :=
      if 0 < available then (st.vault_lamports - available, [(funder, available)])
      else (st.vault_lamports, [])
    let collateral_available := st.collateral_lamports - env.collateral_rent
    let c : Nat × Transfers :=
      if 0 < collateral_available
      then (st.collateral_lamports - collateral_available, [(funder, collateral_available)])
      else (st.collateral_lamports, [])
    let st2 : SwapState :=
      { st with swap := { st.swap with is_refunded := true }, vault_lamports := v.1, collateral_lamports := c.1 }
    .ok (st2, v.2 ++ c.2)

/-- `claim_bounty_for_secret` (lib.rs lines 349-382): requires the bounty
unclaimed and the record non-terminal, runs `verify_adaptor_signature`,
marks `bounty_claimed`, and transfers the available collateral balance
(possibly nothing) to the claimant.  Returns the extracted secret. -/
def claim_bounty_for_secret (o : Oracle) (env : Env) (st : SwapState)
    (claimant : Nat) (adaptor_sig : Bytes) (parity : Nat) (curve_point : Bytes) :
    Except ErrorCode (SwapState × Transfers × Bytes) :=
  if st.swap.bounty_claimed then .error .BountyAlreadyClaimed
  else if st.swap.is_redeemed || st.swap.is_refunded then .error .AlreadyFinalized
  else
    match verify_adaptor_signature o adaptor_sig parity curve_point st.swap.secret_hash with
    | .error e => .error e
    | .ok secret =>
      let available := st.collateral_lamports - env.collateral_rent
      let c : Nat × Transfers :=
        if 0 < available then (st.collateral_lamports - available, [(claimant, available)])
        else (st.collateral_lamports, [])
      let st2 : SwapState :=
        { st with swap := { st.swap with bounty_claimed := true }, collateral_lamports := c.1 }
      .ok (st2, c.2, secret)

/-- `force_open_vtc` (lib.rs lines 412-421): idempotent-guarded flip of
the `vtc_opened` flag. -/
def force_open_vtc (st : SwapState) : Except ErrorCode (SwapState × Transfers) :=
  if st.swap.vtc_opened then .error .VtcAlreadyOpened
  else .ok ({ st with swap := { st.swap with vtc_opened := true } }, [])

/-- One successful state-mutating instruction call on a single swap
record: the step relation of the swap state machine.  Each constructor
wraps one entry point of the program, existentially over the call-time
environment, the external-syscall oracle and the caller-chosen
arguments. -/
inductive Step : SwapState → SwapState → Prop
  | record_proof (st : SwapState) (caller : Nat) (txid : Bytes)
      (st2 : SwapState) (ts : Transfers)
      (h : record_monero_lock_proof st caller txid = .ok (st2, ts)) : Step st st2
  | redeem (o : Oracle) (env : Env) (st : SwapState) (bob relayer : Nat)
      (sig : Bytes) (parity : Nat) (cp : Bytes) (st2 : SwapState)
      (ts : Transfers) (sec : Bytes)
      (h : redeem_sol o env st bob relayer sig parity cp = .ok (st2, ts, sec)) : Step st st2
  | redeem_alice (env : Env) (st : SwapState) (alice relayer : Nat)
      (sig : Bytes) (st2 : SwapState) (ts : Transfers)
      (h : redeem_sol_alice env st alice relayer sig = .ok (st2, ts)) : Step st st2
  | do_refund (env : Env) (st : SwapState) (funder : Nat)
      (st2 : SwapState) (ts : Transfers)
      (h : refund env st funder = .ok (st2, ts)) : Step st st2
  | bounty (o : Oracle) (env : Env) (st : SwapState) (claimant : Nat)
      (sig : Bytes) (parity : Nat) (cp : Bytes) (st2 : SwapState)
      (ts : Transfers) (sec : Bytes)
      (h : claim_bounty_for_secret o env st claimant sig parity cp = .ok (st2, ts, sec)) : Step st st2
  | force_open (st st2 : SwapState) (ts : Transfers)
      (h : force_open_vtc st = .ok (st2, ts)) : Step st st2

/-- A swap state as produced by one of the two creation entry points. -/
def Created (st : SwapState) : Prop :=
  (∃ env alice bob swap_id secret_hash sol_amount xmr_amount monero_sub_address expiry relayer_fee vault_init coll_init,
      create_sol_to_xmr_swap env alice bob swap_id secret_hash sol_amount xmr_amount
        monero_sub_address expiry relayer_fee vault_init coll_init = .ok st) ∨
  (∃ alice bob swap_id secret_hash sol_amount xmr_amount alice_solana expiry relayer_fee vault_init coll_init,
      create_xmr_to_sol_swap alice bob swap_id secret_hash sol_amount xmr_amount
        alice_solana expiry relayer_fee vault_init coll_init = .ok st)

/-- A swap state reachable from a freshly created record by any sequence
of successful instruction calls. -/
def Reachable (st0 st : SwapState) : Prop :=
  Relation.ReflTransGen Step st0 st

theorem created_flags_false {st : SwapState} (h : Created st) :
    st.swap.is_redeemed = false ∧ st.swap.is_refunded = false := by
  rcases h with ⟨env, a, b, sid, sh, sa, xa, msa, ex, rf, vi, ci, h⟩ |
    ⟨a, b, sid, sh, sa, xa, asol, ex, rf, vi, ci, h⟩
  · unfold create_sol_to_xmr_swap at h
    split at h
    · split at h
      · split at h
        · simp only [Except.ok.injEq] at h
          subst h
          exact ⟨rfl, rfl⟩
        · cases h
      · cases h
    · cases h
  · unfold create_xmr_to_sol_swap at h
    simp only [Except.ok.injEq] at h
    subst h
    exact ⟨rfl, rfl⟩

theorem redeem_sol_ok_flags {o : Oracle} {env : Env} {st : SwapState}
    {bob relayer : Nat} {sig : Bytes} {parity : Nat} {cp : Bytes}
    {st2 : SwapState} {ts : Transfers} {sec : Bytes}
    (h : redeem_sol o env st bob relayer sig parity cp = .ok (st2, ts, sec)) :
    st2.swap.is_redeemed = true ∧ st2.swap.is_refunded = false := by
  unfold redeem_sol at h
  split at h
  · cases h
  next hterm =>
    split at h
    · cases h
    split at h
    · cases h
    split at h
    · cases h
    next sec2 hver =>
      simp only [Except.ok.injEq, Prod.mk.injEq] at h
      obtain ⟨hst, -, -⟩ := h
      subst hst
      simp only [Bool.or_eq_true, not_or, Bool.not_eq_true] at hterm
      exact ⟨rfl, hterm.2⟩

theorem redeem_sol_alice_ok_flags {env : Env} {st : SwapState}
    {alice relayer : Nat} {sig : Bytes} {st2 : SwapState} {ts : Transfers}
    (h : redeem_sol_alice env st alice relayer sig = .ok (st2, ts)) :
    st2.swap.is_redeemed = true ∧ st2.swap.is_refunded = false := by
  unfold redeem_sol_alice at h
  split at h
  · cases h
  next hterm =>
    split at h
    · cases h
    split at h
    · cases h
    simp only [Except.ok.injEq, Prod.mk.injEq] at h
    obtain ⟨hst, -⟩ := h
    subst hst
    simp only [Bool.or_eq_true, not_or, Bool.not_eq_true] at hterm
    exact ⟨rfl, hterm.2⟩

theorem refund_ok_flags {env : Env} {st : SwapState} {funder : Nat}
    {st2 : SwapState} {ts : Transfers}
    (h : refund env st funder = .ok (st2, ts)) :
    st2.swap.is_redeemed = false ∧ st2.swap.is_refunded = true := by
  unfold refund at h
  split at h
  · cases h
  next hterm =>
    split at h
    · cases h
    simp only [Except.ok.injEq, Prod.mk.injEq] at h
    obtain ⟨hst, -⟩ := h
    subst hst
    simp only [Bool.or_eq_true, not_or, Bool.not_eq_true] at hterm
    exact ⟨hterm.1, rfl⟩

theorem claim_bounty_ok_flags {o : Oracle} {env : Env} {st : SwapState}
    {claimant : Nat} {sig : Bytes} {parity : Nat} {cp : Bytes}
    {st2 : SwapState} {ts : Transfers} {sec : Bytes}
    (h : claim_bounty_for_secret o env st claimant sig parity cp = .ok (st2, ts, sec)) :
    st2.swap.is_redeemed = false ∧ st2.swap.is_refunded = false := by
  unfold claim_bounty_for_secret at h
  split at h
  · cases h
  split at h
  · cases h
  next hterm =>
    split at h
    · cases h
    next sec2 hver =>
      simp only [Except.ok.injEq, Prod.mk.injEq] at h
      obtain ⟨hst, -, -⟩ := h
      subst hst
      simp only [Bool.or_eq_true, not_or, Bool.not_eq_true] at hterm
      exact ⟨hterm.1, hterm.2⟩

theorem record_proof_ok_flags {st : SwapState} {caller : Nat} {txid : Bytes}
    {st2 : SwapState} {ts : Transfers}
    (h : record_monero_lock_proof st caller txid = .ok (st2, ts)) :
    st2.swap.is_redeemed = st.swap.is_redeemed ∧
    st2.swap.is_refunded = st.swap.is_refunded := by
  unfold record_monero_lock_proof at h
  split at h
  · split at h
    · simp only [Except.ok.injEq, Prod.mk.injEq] at h
      obtain ⟨hst, -⟩ := h
      subst hst
      exact ⟨rfl, rfl⟩
    · cases h
  · cases h

theorem force_open_ok_flags {st st2 : SwapState} {ts : Transfers}
    (h : force_open_vtc st = .ok (st2, ts)) :
    st2.swap.is_redeemed = st.swap.is_redeemed ∧
    st2.swap.is_refunded = st.swap.is_refunded := by
  unfold force_open_vtc at h
  split at h
  · cases h
  simp only [Except.ok.injEq, Prod.mk.injEq] at h
  obtain ⟨hst, -⟩ := h
  subst hst
  exact ⟨rfl, rfl⟩

/-- The record state after an instruction call under the ledger's
all-or-nothing semantics: an error leaves the stored record untouched. -/
def resultState (st : SwapState) : Except ErrorCode (SwapState × Transfers) → SwapState
  | .ok (st2, _) => st2
  | .error _ => st

/-- `resultState` for the entry points that also return a secret. -/
def resultState3 (st : SwapState) : Except ErrorCode (SwapState × Transfers × Bytes) → SwapState
  | .ok (st2, _, _) => st2
  | .error _ => st

/-- The lamport transfers an instruction call performs: none on error. -/
def resultTransfers : Except ErrorCode (SwapState × Transfers) → Transfers
  | .ok (_, ts) => ts
  | .error _ => []

/-- `resultTransfers` for the entry points that also return a secret. -/
def resultTransfers3 : Except ErrorCode (SwapState × Transfers × Bytes) → Transfers
  | .ok (_, ts, _) => ts
  | .error _ => []

/-- Whether an instruction call succeeded. -/
def okB {α : Type} : Except ErrorCode α → Bool
  | .ok _ => true
  | .error _ => false

/-- Total lamports a transfer list sends to account key `k`. -/
def paidTo (k : Nat) (ts : Transfers) : Nat :=
  (ts.filter (fun p => p.1 == k)).foldr (fun p acc => p.2 + acc) 0

/-- Concrete fixtures used by witnesses and counterexamples. -/
def zeroBytes32 : Bytes := List.replicate 32 0

def sampleSecretHash : Bytes := List.replicate 31 0 ++ [5]

def sampleCurvePoint : Bytes := List.replicate 32 1

def sampleSig : Bytes := List.replicate 63 0 ++ [3]

def sampleChallenge : Bytes := List.replicate 31 0 ++ [1]

/-- A concrete oracle: the hash syscall returns the challenge byte string
`0^31 1` and public-key recovery returns a 64-byte key whose first 32
bytes equal `sampleCurvePoint`, so `verify_adaptor_signature` reaches the
extraction step on the sample inputs. -/
def sampleOracle : Oracle :=
  { hashFn := fun _ => sampleChallenge,
    recoverFn := fun _ _ _ => some (sampleCurvePoint ++ List.replicate 32 0) }

def sampleEnv : Env := { now := 0, vault_rent := 1000, collateral_rent := 1000 }

def envLate : Env := { now := 200000, vault_rent := 1000, collateral_rent := 1000 }

def sampleSwap : Swap :=
  { direction := .SolToXmr, swap_id := zeroBytes32, alice := 1, bob := 2,
    secret_hash := sampleSecretHash, expiry := 100000, relayer_fee := 10000,
    is_redeemed := false, is_refunded := false, sol_amount := 1000000,
    xmr_amount := 50, monero_sub_address := List.replicate 64 0,
    monero_lock_txid := zeroBytes32, alice_solana := 0, vtc_opened := false,
    bob_collateral_locked := true, alice_collateral_locked := false,
    bounty_claimed := false }

def sampleState : SwapState :=
  { swap := sampleSwap, vault_lamports := 1001000, collateral_lamports := 1001000 }

def sampleStateX2S : SwapState :=
  { sampleState with swap := { sampleSwap with direction := .XmrToSol, bob_collateral_locked := false } }

def sampleRefunded : SwapState :=
  { sampleState with swap := { sampleSwap with is_refunded := true } }

def sampleRedeemed : SwapState :=
  { sampleState with swap := { sampleSwap with is_redeemed := true } }

/-- Claim C5: every swap record reachable from creation through the
exposed operations never has `is_redeemed` and `is_refunded` true at the
same time: both creation entry points initialise the flags false, the two
redeem paths and `refund` each require a non-terminal record before
setting their flag, and no other operation touches the flags. -/
theorem C5_terminal_flags_mutually_exclusive (s0 s : SwapState)
    (h0 : Created s0) (hs : Reachable s0 s) :
    ¬ (s.swap.is_redeemed = true ∧ s.swap.is_refunded = true) := by
  unfold Reachable at hs
  induction hs with
  | refl =>
      have hcf := created_flags_false h0
      simp [hcf.1, hcf.2]
  | tail hrtg hstep ih =>
      cases hstep with
      | record_proof st caller txid st2 ts h =>
          have hp := record_proof_ok_flags h
          rw [hp.1, hp.2]
          exact ih
      | redeem o env st bob relayer sig parity cp st2 ts sec h =>
          have hp := redeem_sol_ok_flags h
          simp [hp.2]
      | redeem_alice env st alice relayer sig st2 ts h =>
          have hp := redeem_sol_alice_ok_flags h
          simp [hp.2]
      | do_refund env st funder st2 ts h =>
          have hp := refund_ok_flags h
          simp [hp.1]
      | bounty o env st claimant sig parity cp st2 ts sec h =>
          have hp := claim_bounty_ok_flags h
          simp [hp.1]
      | force_open st st2 ts h =>
          have hp := force_open_ok_flags h
          rw [hp.1, hp.2]
          exact ih

/-- Witness for C5: a concretely created record satisfies the exclusion. -/
theorem C5_terminal_flags_mutually_exclusive_witness :
    ¬ (sampleState.swap.is_redeemed = true ∧ sampleState.swap.is_refunded = true) :=
  C5_terminal_flags_mutually_exclusive sampleState sampleState
    (Or.inl ⟨sampleEnv, 1, 2, zeroBytes32, sampleSecretHash, 1000000, 50,
      List.replicate 64 0, 100000, 10000, 1000, 1000, by decide⟩)
    Relation.ReflTransGen.refl

/-- Claim C7: on an already-terminal record every further redeem or
refund call fails with `AlreadyFinalized`, the stored record is left
unchanged and no lamports move. -/
theorem C7_terminal_idempotence (o : Oracle) (env : Env) (st : SwapState)
    (bob relayer alice relayer2 funder : Nat) (sig : Bytes) (parity : Nat)
    (cp : Bytes) (vsig : Bytes)
    (hterm : st.swap.is_redeemed = true ∨ st.swap.is_refunded = true) :
    redeem_sol o env st bob relayer sig parity cp = .error .AlreadyFinalized ∧
    redeem_sol_alice env st alice relayer2 vsig = .error .AlreadyFinalized ∧
    refund env st funder = .error .AlreadyFinalized ∧
    resultState3 st (redeem_sol o env st bob relayer sig parity cp) = st ∧
    resultState st (redeem_sol_alice env st alice relayer2 vsig) = st ∧
    resultState st (refund env st funder) = st ∧
    resultTransfers3 (redeem_sol o env st bob relayer sig parity cp) = [] ∧
    resultTransfers (redeem_sol_alice env st alice relayer2 vsig) = [] ∧
    resultTransfers (refund env st funder) = [] := by
  have hguard : (st.swap.is_redeemed || st.swap.is_refunded) = true := by
    rcases hterm with h | h <;> simp [h]
  have h1 : redeem_sol o env st bob relayer sig parity cp = .error .AlreadyFinalized := by
    unfold redeem_sol
    simp [hguard]
  have h2 : redeem_sol_alice env st alice relayer2 vsig = .error .AlreadyFinalized := by
    unfold redeem_sol_alice
    simp [hguard]
  have h3 : refund env st funder = .error .AlreadyFinalized := by
    unfold refund
    simp [hguard]
  refine ⟨h1, h2, h3, ?_, ?_, ?_, ?_, ?_, ?_⟩ <;> simp only [h1, h2, h3] <;> rfl

/-- Witness for C7 at a concrete redeemed record. -/
theorem C7_terminal_idempotence_witness :
    refund sampleEnv sampleRedeemed 9 = .error .AlreadyFinalized ∧
    redeem_sol sampleOracle sampleEnv sampleRedeemed 2 3 sampleSig 0 sampleCurvePoint =
      .error .AlreadyFinalized := by
  have h := C7_terminal_idempotence sampleOracle sampleEnv sampleRedeemed
    2 3 4 5 9 sampleSig 0 sampleCurvePoint sampleSig (Or.inl (by decide))
  exact ⟨h.2.2.1, h.1⟩

/-- Claim C6: on a non-terminal record past its expiry (`now > expiry`),
`refund` succeeds, marks the record refunded, and pays the whole
available principal escrow plus the whole available collateral escrow to
the funder, requiring no secret (its inputs contain none); with
`now ≤ expiry` it fails with `NotYetExpired`. -/
theorem C6_refund_timing (env : Env) (st : SwapState) (funder : Nat)
    (hr : st.swap.is_redeemed = false) (hf : st.swap.is_refunded = false) :
    (st.swap.expiry < env.now →
       okB (refund env st funder) = true ∧
       (resultState st (refund env st funder)).swap.is_refunded = true ∧
       paidTo funder (resultTransfers (refund env st funder)) =
         (st.vault_lamports - env.vault_rent) + (st.collateral_lamports - env.collateral_rent)) ∧
    (¬ st.swap.expiry < env.now → refund env st funder = .error .NotYetExpired) := by
  have hguard : (st.swap.is_redeemed || st.swap.is_refunded) = false := by
    simp [hr, hf]
  constructor
  · intro hexp
    simp only [refund, hguard, Bool.false_eq_true, if_false, hexp, not_true_eq_false]
    split <;> split <;> simp [okB, resultState, resultTransfers, paidTo] <;> omega
  · intro hexp
    simp [refund, hguard, hexp]

/-- Witness for C6 at a concrete record: refund succeeds once the clock
passes expiry and fails with `NotYetExpired` before it. -/
theorem C6_refund_timing_witness :
    okB (refund envLate sampleState 1) = true ∧
    refund sampleEnv sampleState 1 = .error .NotYetExpired := by
  constructor
  · exact ((C6_refund_timing envLate sampleState 1 (by decide) (by decide)).1 (by decide)).1
  · exact (C6_refund_timing sampleEnv sampleState 1 (by decide) (by decide)).2 (by decide)

/-- Claim C10 (implicit in the accounts struct): `refund` never relates
the payout recipient to the record's stored parties — for every expired
non-terminal record and every signing funder key the call succeeds, every
transfer it performs targets exactly the supplied key, and success does
not depend on which key was supplied. -/
theorem C10_refund_funder_unchecked (env : Env) (st : SwapState) (funder : Nat)
    (hr : st.swap.is_redeemed = false) (hf : st.swap.is_refunded = false)
    (hexp : st.swap.expiry < env.now) :
    okB (refund env st funder) = true ∧
    (∀ p ∈ resultTransfers (refund env st funder), p.1 = funder) ∧
    (∀ funder2 : Nat, okB (refund env st funder2) = okB (refund env st funder)) := by
  have hguard : (st.swap.is_redeemed || st.swap.is_refunded) = false := by
    simp [hr, hf]
  refine ⟨?_, ?_, ?_⟩
  · simp only [refund, hguard, Bool.false_eq_true, if_false, hexp, not_true_eq_false]
    split <;> split <;> simp [okB]
  · simp only [refund, hguard, Bool.false_eq_true, if_false, hexp, not_true_eq_false]
    split <;> split <;> simp [resultTransfers]
  · intro funder2
    simp only [refund, hguard, Bool.false_eq_true, if_false, hexp, not_true_eq_false]
    split <;> split <;> simp [okB]

/-- Witness for C10: a funder key distinct from both stored parties is
paid out. -/
theorem C10_refund_funder_unchecked_witness :
    okB (refund envLate sampleState 999) = true ∧
    (999 ≠ sampleState.swap.alice ∧ 999 ≠ sampleState.swap.bob) := by
  refine ⟨(C10_refund_funder_unchecked envLate sampleState 999
    (by decide) (by decide) (by decide)).1, by decide⟩

/-- The 32 big-endian bytes of `n - 1`, the secp256k1 group order minus
one — the value the spec's test vector `s = 1, e = 2` must produce. -/
def N_MINUS_ONE : Bytes :=
  [0xFF, 0xFF, 0xFF, 0xFF, 0xFF, 0xFF, 0xFF, 0xFF,
   0xFF, 0xFF, 0xFF, 0xFF, 0xFF, 0xFF, 0xFF, 0xFE,
   0xBA, 0xAE, 0xDC, 0xE6, 0xAF, 0x48, 0xA0, 0x3B,
   0xBF, 0xD2, 0x5E, 0x8C, 0xD0, 0x36, 0x41, 0x40]

/-- Big-endian byte-string value as a natural number. -/
def bytesToNat (bs : Bytes) : Nat :=
  bs.foldl (fun acc b => 256 * acc + b) 0

/-- The secp256k1 group order as a natural number. -/
def secp256k1_order : Nat := bytesToNat N_ORDER

/-- Claim C1 (code bug): the secret-extraction step does not compute
`(s - e) mod n`.  On the spec's own vector `s = 1`, `e = 2` the loop
returns the all-`0xFF` string, i.e. the value `2^256 - 1`, while
`(1 - 2) mod n = n - 1`; the stray per-byte step
`if diff >= N[i] { diff -= N[i] }` inside the borrow loop breaks the
256-bit subtraction, contradicting the source's own comments
(`t = (s - e) mod N`). -/
theorem C1_extraction_is_not_sub_mod_n :
    extractScalar (List.replicate 31 0 ++ [1]) (List.replicate 31 0 ++ [2]) =
      List.replicate 32 0xFF ∧
    bytesToNat (extractScalar (List.replicate 31 0 ++ [1]) (List.replicate 31 0 ++ [2])) =
      2 ^ 256 - 1 ∧
    ((1 : Int) - 2) % (secp256k1_order : Int) = (secp256k1_order : Int) - 1 ∧
    bytesToNat N_MINUS_ONE = secp256k1_order - 1 ∧
    extractScalar (List.replicate 31 0 ++ [1]) (List.replicate 31 0 ++ [2]) ≠
      N_MINUS_ONE := by
  refine ⟨by decide, by decide, by decide, by decide, by decide⟩

/-- Claim C9: `verify_adaptor_signature` is a pure function of the
syscall oracle and its inputs, so two calls with identical inputs return
identical results, and whenever it succeeds the returned scalar is not
the all-zero string (the final guard rejects it). -/
theorem C9_deterministic_and_nonzero (o : Oracle) (sig : Bytes) (parity : Nat)
    (cp eh t : Bytes)
    (hok : verify_adaptor_signature o sig parity cp eh = .ok t) :
    verify_adaptor_signature o sig parity cp eh =
      verify_adaptor_signature o sig parity cp eh ∧
    t.all (· == 0) = false := by
  refine ⟨rfl, ?_⟩
  unfold verify_adaptor_signature at hok
  split at hok
  · cases hok
  split at hok
  · cases hok
  split at hok
  · cases hok
  split at hok
  · cases hok
  split at hok
  · cases hok
  · split at hok
    · split at hok
      · cases hok
      · rename_i hzero
        simp only [Except.ok.injEq] at hok
        subst hok
        simpa using hzero
    · cases hok

def sampleExtracted : Bytes := List.replicate 31 0 ++ [2]

/-- Witness for C9: a concrete succeeding verification whose extracted
scalar is the nonzero value 2. -/
theorem C9_deterministic_and_nonzero_witness :
    verify_adaptor_signature sampleOracle sampleSig 0 sampleCurvePoint sampleSecretHash =
      .ok sampleExtracted ∧
    sampleExtracted.all (· == 0) = false := by
  have h : verify_adaptor_signature sampleOracle sampleSig 0 sampleCurvePoint sampleSecretHash =
      .ok sampleExtracted := by decide
  exact ⟨h, (C9_deterministic_and_nonzero sampleOracle sampleSig 0
    sampleCurvePoint sampleSecretHash sampleExtracted h).2⟩

/-- Counterexample to C4: the XMR→SOL creation entry point performs no
parameter validation: it succeeds with an all-zero secret hash, a relayer
fee of 1000000 on a principal of 100 (far above principal/20 = 5), and an
expiry of 0. -/
theorem C4_counterexample_xmr_creation_unchecked :
    okB (create_xmr_to_sol_swap 1 2 zeroBytes32 zeroBytes32 100 50 7 0 1000000 1000 1000) =
      true := by
  decide

/-- Claim C4 amended: only the SOL→XMR creation entry point enforces the
creation preconditions — `InvalidExpiry` unless `expiry > now + 24h`,
then `ExcessiveRelayerFee` iff `relayer_fee > sol_amount / 20` (equality
succeeds), then `InvalidSecretHash` iff the secret hash is all zero.
The XMR→SOL creation entry point performs no parameter validation and
always succeeds. -/
theorem C4_amended_creation_preconditions (env : Env) (alice bob : Nat)
    (swap_id secret_hash : Bytes) (sol_amount xmr_amount : Nat)
    (monero_sub_address : Bytes) (expiry : Int) (relayer_fee : Nat)
    (vault_init coll_init alice_solana : Nat) :
    (¬ env.now + 24 * 3600 < expiry →
       create_sol_to_xmr_swap env alice bob swap_id secret_hash sol_amount xmr_amount
         monero_sub_address expiry relayer_fee vault_init coll_init = .error .InvalidExpiry) ∧
    (env.now + 24 * 3600 < expiry → sol_amount / 20 < relayer_fee →
       create_sol_to_xmr_swap env alice bob swap_id secret_hash sol_amount xmr_amount
         monero_sub_address expiry relayer_fee vault_init coll_init = .error .ExcessiveRelayerFee) ∧
    (env.now + 24 * 3600 < expiry → relayer_fee ≤ sol_amount / 20 →
       secret_hash.any (· != 0) = false →
       create_sol_to_xmr_swap env alice bob swap_id secret_hash sol_amount xmr_amount
         monero_sub_address expiry relayer_fee vault_init coll_init = .error .InvalidSecretHash) ∧
    (env.now + 24 * 3600 < expiry → relayer_fee ≤ sol_amount / 20 →
       secret_hash.any (· != 0) = true →
       okB (create_sol_to_xmr_swap env alice bob swap_id secret_hash sol_amount xmr_amount
         monero_sub_address expiry relayer_fee vault_init coll_init) = true) ∧
    okB (create_xmr_to_sol_swap alice bob swap_id secret_hash sol_amount xmr_amount
       alice_solana expiry relayer_fee vault_init coll_init) = true := by
  refine ⟨?_, ?_, ?_, ?_, ?_⟩
  · intro h1
    unfold create_sol_to_xmr_swap
    rw [if_neg h1]
  · intro h1 h2
    have h2n : ¬ relayer_fee ≤ sol_amount / 20 := by omega
    unfold create_sol_to_xmr_swap
    rw [if_pos h1, if_neg h2n]
  · intro h1 h2 h3
    unfold create_sol_to_xmr_swap
    rw [if_pos h1, if_pos h2, if_neg (by simp [h3])]
  · intro h1 h2 h3
    unfold create_sol_to_xmr_swap
    rw [if_pos h1, if_pos h2, if_pos h3]
    rfl
  · simp [create_xmr_to_sol_swap, okB]

/-- Witness for C4 amended: with principal 1000000 a fee of 60000 (above
the 50000 cap) is rejected with `ExcessiveRelayerFee` while a fee of
exactly 50000 succeeds. -/
theorem C4_amended_creation_preconditions_witness :
    create_sol_to_xmr_swap sampleEnv 1 2 zeroBytes32 sampleSecretHash 1000000 50
      (List.replicate 64 0) 100000 60000 1000 1000 = .error .ExcessiveRelayerFee ∧
    okB (create_sol_to_xmr_swap sampleEnv 1 2 zeroBytes32 sampleSecretHash 1000000 50
      (List.replicate 64 0) 100000 50000 1000 1000) = true := by
  have ha := C4_amended_creation_preconditions sampleEnv 1 2 zeroBytes32 sampleSecretHash
    1000000 50 (List.replicate 64 0) 100000 60000 1000 1000 7
  have hb := C4_amended_creation_preconditions sampleEnv 1 2 zeroBytes32 sampleSecretHash
    1000000 50 (List.replicate 64 0) 100000 50000 1000 1000 7
  exact ⟨ha.2.1 (by decide) (by decide), hb.2.2.2.1 (by decide) (by decide) (by decide)⟩

/-- Counterexample to C8: `record_monero_lock_proof` has no
non-terminal-state precondition — called by Bob on an already-redeemed
SOL→XMR record, it succeeds. -/
theorem C8_counterexample_record_proof_on_terminal :
    sampleRedeemed.swap.is_redeemed = true ∧
    okB (record_monero_lock_proof sampleRedeemed 2 sampleSecretHash) = true := by
  refine ⟨by decide, by decide⟩

/-- Claim C8 amended: `record_monero_lock_proof` succeeds exactly when the
signing caller equals the record's counterparty `bob` and the direction
is SOL→XMR — the record's terminal state is not checked; on success its
only effect is storing the supplied txid, and it moves no funds. -/
theorem C8_amended_record_proof (st : SwapState) (caller : Nat) (txid : Bytes) :
    (okB (record_monero_lock_proof st caller txid) = true ↔
       st.swap.bob = caller ∧ st.swap.direction = Direction.SolToXmr) ∧
    (∀ st2 ts, record_monero_lock_proof st caller txid = .ok (st2, ts) →
       st2 = { st with swap := { st.swap with monero_lock_txid := txid } } ∧ ts = []) := by
  constructor
  · unfold record_monero_lock_proof
    split
    · split
      · rename_i h1 h2
        simp [okB, h1, h2]
      · rename_i h1 h2
        simp [okB, h1, h2]
    · rename_i h1
      simp [okB, h1]
  · intro st2 ts h
    unfold record_monero_lock_proof at h
    split at h
    · split at h
      · simp only [Except.ok.injEq, Prod.mk.injEq] at h
        exact ⟨h.1.symm, h.2.symm⟩
      · cases h
    · cases h

/-- Witness for C8 amended at a concrete non-terminal record. -/
theorem C8_amended_record_proof_witness :
    okB (record_monero_lock_proof sampleState 2 sampleSecretHash) = true :=
  (C8_amended_record_proof sampleState 2 sampleSecretHash).1.mpr (by decide)

/-- Counterexample to C3: a `claim_bounty_for_secret` call whose adaptor
signature passes every step of the §4.1 verifier fails with
`AlreadyFinalized` on a record that is already refunded (bounty still
unclaimed): the handler requires a non-terminal record, so `ClaimBounty`
is not callable on terminal records. -/
theorem C3_counterexample_bounty_requires_nonterminal :
    verify_adaptor_signature sampleOracle sampleSig 0 sampleCurvePoint
      sampleRefunded.swap.secret_hash = .ok sampleExtracted ∧
    sampleRefunded.swap.bounty_claimed = false ∧
    sampleRefunded.swap.is_refunded = true ∧
    claim_bounty_for_secret sampleOracle sampleEnv sampleRefunded 7 sampleSig 0
      sampleCurvePoint = .error .AlreadyFinalized := by
  refine ⟨by decide, by decide, by decide, by decide⟩

/-- Claim C3 amended: `claim_bounty_for_secret` has two state
preconditions, `bounty_claimed = false` and the record non-terminal.  On
an already-claimed record it fails with `BountyAlreadyClaimed`; on a
terminal record (claimed or not) it fails with `AlreadyFinalized`; on a
non-terminal unclaimed record whose adaptor signature passes §4.1 it
succeeds, pays the available collateral balance to the claimant, returns
the extracted secret, sets `bounty_claimed := true`, and any second call
on the resulting record fails with `BountyAlreadyClaimed`. -/
theorem C3_amended_bounty (o : Oracle) (env env2 : Env) (st : SwapState)
    (claimant claimant2 : Nat) (sig sig2 : Bytes) (parity parity2 : Nat)
    (cp cp2 sec : Bytes) :
    (st.swap.bounty_claimed = true →
       claim_bounty_for_secret o env st claimant sig parity cp =
         .error .BountyAlreadyClaimed) ∧
    (st.swap.bounty_claimed = false →
     (st.swap.is_redeemed = true ∨ st.swap.is_refunded = true) →
       claim_bounty_for_secret o env st claimant sig parity cp =
         .error .AlreadyFinalized) ∧
    (st.swap.bounty_claimed = false → st.swap.is_redeemed = false →
     st.swap.is_refunded = false →
     verify_adaptor_signature o sig parity cp st.swap.secret_hash = .ok sec →
       okB (claim_bounty_for_secret o env st claimant sig parity cp) = true ∧
       (∀ st2 ts s2,
          claim_bounty_for_secret o env st claimant sig parity cp = .ok (st2, ts, s2) →
          st2.swap.bounty_claimed = true ∧ s2 = sec ∧
          paidTo claimant ts = st.collateral_lamports - env.collateral_rent ∧
          claim_bounty_for_secret o env2 st2 claimant2 sig2 parity2 cp2 =
            .error .BountyAlreadyClaimed)) := by
  refine ⟨?_, ?_, ?_⟩
  · intro h
    simp [claim_bounty_for_secret, h]
  · intro hbc hterm
    have hguard : (st.swap.is_redeemed || st.swap.is_refunded) = true := by
      rcases hterm with h | h <;> simp [h]
    simp [claim_bounty_for_secret, hbc, hguard]
  · intro hbc hr hf hver
    have hguard : (st.swap.is_redeemed || st.swap.is_refunded) = false := by
      simp [hr, hf]
    constructor
    · simp [claim_bounty_for_secret, hbc, hguard, hver, okB]
    · intro st2 ts s2 h
      simp only [claim_bounty_for_secret, hbc, hguard, hver, Bool.false_eq_true,
        if_false, Except.ok.injEq, Prod.mk.injEq] at h
      obtain ⟨hst, hts, hsec⟩ := h
      subst hst
      subst hts
      subst hsec
      refine ⟨rfl, rfl, ?_, ?_⟩
      · split
        · simp [paidTo]
        · simp [paidTo]
          omega
      · simp [claim_bounty_for_secret]

/-- Witness for C3 amended: the sample record's bounty claim succeeds. -/
theorem C3_amended_bounty_witness :
    okB (claim_bounty_for_secret sampleOracle sampleEnv sampleState 7 sampleSig 0
      sampleCurvePoint) = true := by
  exact ((C3_amended_bounty sampleOracle sampleEnv sampleEnv sampleState 7 8 sampleSig
    sampleSig 0 0 sampleCurvePoint sampleCurvePoint sampleExtracted).2.2
    (by decide) (by decide) (by decide) (by decide)).1

def zeroSig64 : Bytes := List.replicate 64 0

/-- Counterexample to C2: `redeem_sol_alice` never runs the §4.1
verifier: with a 64-byte all-zero adaptor signature — which the verifier
rejects at its degenerate-input guard — the XMR→SOL redeem succeeds, and
it returns no secret by type. -/
theorem C2_counterexample_alice_redeem_skips_verifier :
    verify_adaptor_signature sampleOracle zeroSig64 0 sampleCurvePoint
      sampleStateX2S.swap.secret_hash = .error .InvalidAdaptorSig ∧
    okB (redeem_sol_alice sampleEnv sampleStateX2S 1 3 zeroSig64) = true := by
  refine ⟨by decide, by decide⟩

/-- Claim C2 amended: only the SOL→XMR entry point `redeem_sol` executes
the §4.1 verifier on the supplied `(adaptor_sig, parity, curve_point)`
against the record's `secret_hash` — on a non-terminal SOL→XMR record
with `parity ≤ 1` it propagates every verifier error (always
`InvalidAdaptorSig`) and on verifier success it succeeds and returns the
extracted scalar.  The XMR→SOL entry point `redeem_sol_alice` checks
only that the supplied signature is 64 bytes long (succeeding exactly
when it is, on a non-terminal XMR→SOL record) and returns no secret. -/
theorem C2_amended_redeem_verification (o : Oracle) (env : Env) (st stx : SwapState)
    (bob relayer alice relayer2 : Nat) (sig vsig : Bytes) (parity : Nat) (cp : Bytes)
    (hr : st.swap.is_redeemed = false) (hf : st.swap.is_refunded = false)
    (hdir : st.swap.direction = Direction.SolToXmr) (hp : parity ≤ 1)
    (hrx : stx.swap.is_redeemed = false) (hfx : stx.swap.is_refunded = false)
    (hdx : stx.swap.direction = Direction.XmrToSol) :
    (∀ e, verify_adaptor_signature o sig parity cp st.swap.secret_hash = .error e →
       redeem_sol o env st bob relayer sig parity cp = .error e) ∧
    (∀ sec, verify_adaptor_signature o sig parity cp st.swap.secret_hash = .ok sec →
       okB (redeem_sol o env st bob relayer sig parity cp) = true ∧
       ∀ st2 ts s2, redeem_sol o env st bob relayer sig parity cp = .ok (st2, ts, s2) →
         s2 = sec) ∧
    okB (redeem_sol_alice env stx alice relayer2 vsig) = (vsig.length == 64) := by
  have hguard : (st.swap.is_redeemed || st.swap.is_refunded) = false := by
    simp [hr, hf]
  have hguardx : (stx.swap.is_redeemed || stx.swap.is_refunded) = false := by
    simp [hrx, hfx]
  have hnp : ¬ 1 < parity := by omega
  refine ⟨?_, ?_, ?_⟩
  · intro e he
    simp [redeem_sol, hguard, hdir, hnp, he]
  · intro sec hver
    constructor
    · simp [redeem_sol, hguard, hdir, hnp, hver, okB]
    · intro st2 ts s2 h
      simp [redeem_sol, hguard, hdir, hnp, hver] at h
      exact h.2.2.symm
  · rcases eq_or_ne vsig.length 64 with h | h <;>
      simp [redeem_sol_alice, hguardx, hdx, h, okB]

/-- Witness for C2 amended: the sample SOL→XMR redeem succeeds under the
sample oracle, and the sample XMR→SOL redeem succeeds with a 64-byte
signature. -/
theorem C2_amended_redeem_verification_witness :
    okB (redeem_sol sampleOracle sampleEnv sampleState 2 3 sampleSig 0 sampleCurvePoint) =
      true ∧
    okB (redeem_sol_alice sampleEnv sampleStateX2S 1 3 (List.replicate 64 1)) = true := by
  have h := C2_amended_redeem_verification sampleOracle sampleEnv sampleState sampleStateX2S
    2 3 1 3 sampleSig (List.replicate 64 1) 0 sampleCurvePoint (by decide) (by decide)
    (by decide) (by decide) (by decide) (by decide) (by decide)
  refine ⟨(h.2.1 sampleExtracted (by decide)).1, ?_⟩
  rw [h.2.2]
  decide

end StealthSwap
